import Mathlib

/-!
Verification of the configuration-merging contract of `examples/06_base_configs.py`.

The data model (the `AdamOptimizer`, `SgdOptimizer` and `ExperimentConfig`
dataclasses, their field defaults, and the `base_config_library` registry) is
embedded directly from the source file.  Python float literals (`1e-3`, `0.9`,
`0.999`, `3e-4`) are represented as the exact rationals they denote; no float
arithmetic occurs in the program, the values are only stored and compared.

The resolver itself (`dcargs.cli` merging a `default_instance` with CLI
overrides) lives in the `dcargs` library, whose implementation is not part of
this repository excerpt; those operations are modelled from the spec and
marked as such in their doc comments.
-/

namespace BaseConfigs

/-- A field value that is either concrete or the `dcargs.MISSING` sentinel
(spec: `MissingSentinel`, "a distinguished marker value usable in place of any
field's default"). -/
inductive MValue (α : Type) where
  | missing
  | value (a : α)
deriving DecidableEq

/-- Whether a field value is the missing sentinel. -/
def MValue.isMissing {α : Type} : MValue α → Bool
  | .missing => true
  | .value _ => false

/-- The `dataset: Literal["mnist", "imagenet-50"]` field type from the source. -/
inductive Dataset where
  | mnist
  | imagenet50
deriving DecidableEq

/-- `AdamOptimizer` dataclass from the source: `learning_rate: float = 1e-3`,
`betas: Tuple[float, float] = (0.9, 0.999)`. -/
structure AdamOptimizer where
  learning_rate : ℚ := 1/1000
  betas : ℚ × ℚ := (9/10, 999/1000)
deriving DecidableEq

/-- `SgdOptimizer` dataclass from the source: `learning_rate: float = 3e-4`. -/
structure SgdOptimizer where
  learning_rate : ℚ := 3/10000
deriving DecidableEq

/-- The `Union[AdamOptimizer, SgdOptimizer]` optimizer field: a closed variant
with exactly one active case. -/
inductive OptimizerConfig where
  | adam (c : AdamOptimizer)
  | sgd (c : SgdOptimizer)
deriving DecidableEq

/-- A prototype `ExperimentConfig` in which any field may hold the
`dcargs.MISSING` sentinel (as `seed` does in both registry entries). -/
structure ExperimentConfigProto where
  dataset : MValue Dataset
  optimizer : MValue OptimizerConfig
  num_layers : MValue Int
  units : MValue Int
  batch_size : MValue Int
  train_steps : MValue Int
  seed : MValue Int
deriving DecidableEq

/-- A resolved `ExperimentConfig`: every field holds a concrete value.  The
spec invariant "once constructed (resolved), every field holds a concrete
value" is enforced by this type. -/
structure ExperimentConfig where
  dataset : Dataset
  optimizer : OptimizerConfig
  num_layers : Int
  units : Int
  batch_size : Int
  train_steps : Int
  seed : Int
deriving DecidableEq

/-- The `"small"` prototype of `base_config_library` from the source. -/
def smallProto : ExperimentConfigProto :=
  { dataset := .value .mnist
    optimizer := .value (.sgd {})
    batch_size := .value 2048
    num_layers := .value 4
    units := .value 64
    train_steps := .value 30000
    seed := .missing }

/-- The `"big"` prototype of `base_config_library` from the source. -/
def bigProto : ExperimentConfigProto :=
  { dataset := .value .imagenet50
    optimizer := .value (.adam {})
    batch_size := .value 32
    num_layers := .value 8
    units := .value 256
    train_steps := .value 100000
    seed := .missing }

/-- The `base_config_library` registry from the source: an immutable mapping
from configuration name to prototype. -/
def base_config_library : List (String × ExperimentConfigProto) :=
  [("small", smallProto), ("big", bigProto)]

/-- Partial override for the sub-fields of the Adam case. -/
structure AdamOverride where
  learning_rate : Option ℚ := none
  betas : Option (ℚ × ℚ) := none
deriving DecidableEq

/-- Partial override for the sub-fields of the Sgd case. -/
structure SgdOverride where
  learning_rate : Option ℚ := none
deriving DecidableEq

/-- An override targeting the `optimizer` variant field: its case names the
variant whose sub-fields are supplied (the "shape" of the override). -/
inductive OptimizerOverride where
  | adam (o : AdamOverride)
  | sgd (o : SgdOverride)
deriving DecidableEq

/-- The override structure supplied by the external CLI collaborator: a
partial record, one optional entry per field path (spec, section 6). -/
structure Overrides where
  dataset : Option Dataset := none
  optimizer : Option OptimizerOverride := none
  num_layers : Option Int := none
  units : Option Int := none
  batch_size : Option Int := none
  train_steps : Option Int := none
  seed : Option Int := none
deriving DecidableEq

/-- The error kinds of the spec's section 7. -/
inductive ResolveError where
  | UnknownBaseName (validNames : List String)
  | MissingRequiredField (fields : List String)
  | VariantSwitchDisabled
  | InvalidEnumValue
  | InvalidNumericValue
deriving DecidableEq

/-- Modelled from the spec: `selectBase(registry, name)` of the ConfigResolver
(the lookup performed by `__main__` on `os.environ.get("BASE_CONFIG")`, where
the `dcargs` machinery is not part of the excerpt).  Absence of the name
(`none`) or an unrecognized value fails with `UnknownBaseName` reporting the
set of valid names. -/
def selectBase (registry : List (String × ExperimentConfigProto))
    (name : Option String) : Except ResolveError ExperimentConfigProto :=
  match name with
  | none => .error (.UnknownBaseName (registry.map Prod.fst))
  | some n =>
    match registry.lookup n with
    | some proto => .ok proto
    | none => .error (.UnknownBaseName (registry.map Prod.fst))

/-- Merge an Adam sub-field override onto an Adam sub-record: supplied
sub-fields win, omitted sub-fields keep the base value. -/
def applyAdamOverride (base : AdamOptimizer) (o : AdamOverride) : AdamOptimizer :=
  { learning_rate := o.learning_rate.getD base.learning_rate
    betas := o.betas.getD base.betas }

/-- Merge an Sgd sub-field override onto an Sgd sub-record. -/
def applySgdOverride (base : SgdOptimizer) (o : SgdOverride) : SgdOptimizer :=
  { learning_rate := o.learning_rate.getD base.learning_rate }

/-- Modelled from the spec: merging of the variant `optimizer` field (the
spec's policy flag `allowVariantSwitch`, mirroring `avoid_subparsers` of the
absent `dcargs.cli`).  An override whose shape matches the currently selected
case merges its sub-fields; a mismatched shape switches the case (building
the new case from its declared defaults plus the supplied sub-fields) when
switching is allowed, and fails with `VariantSwitchDisabled` when it is not.
An override onto a missing optimizer installs the named case outright. -/
def mergeOptimizer (allowVariantSwitch : Bool) (base : MValue OptimizerConfig)
    (ov : Option OptimizerOverride) : Except ResolveError (MValue OptimizerConfig) :=
  match ov with
  | none => .ok base
  | some o =>
    match base, o with
    | .value (.adam a), .adam oa => .ok (.value (.adam (applyAdamOverride a oa)))
    | .value (.sgd s), .sgd os => .ok (.value (.sgd (applySgdOverride s os)))
    | .value (.adam _), .sgd os =>
      if allowVariantSwitch then .ok (.value (.sgd (applySgdOverride {} os)))
      else .error .VariantSwitchDisabled
    | .value (.sgd _), .adam oa =>
      if allowVariantSwitch then .ok (.value (.adam (applyAdamOverride {} oa)))
      else .error .VariantSwitchDisabled
    | .missing, .adam oa => .ok (.value (.adam (applyAdamOverride {} oa)))
    | .missing, .sgd os => .ok (.value (.sgd (applySgdOverride {} os)))

/-- Merge one scalar field: a supplied override wins, otherwise the
prototype's value (possibly the missing sentinel) is kept. -/
def mergeField {α : Type} (base : MValue α) (ov : Option α) : MValue α :=
  match ov with
  | some v => .value v
  | none => base

/-- Modelled from the spec: the field-by-field merge underlying `resolve` —
"for each field of `prototype`, if an override is supplied for that field, the
override value wins; otherwise the prototype's value is used". -/
def mergeProto (allowVariantSwitch : Bool) (p : ExperimentConfigProto)
    (ov : Overrides) : Except ResolveError ExperimentConfigProto :=
  match mergeOptimizer allowVariantSwitch p.optimizer ov.optimizer with
  | .error e => .error e
  | .ok opt =>
    .ok { dataset := mergeField p.dataset ov.dataset
          optimizer := opt
          num_layers := mergeField p.num_layers ov.num_layers
          units := mergeField p.units ov.units
          batch_size := mergeField p.batch_size ov.batch_size
          train_steps := mergeField p.train_steps ov.train_steps
          seed := mergeField p.seed ov.seed }

/-- The names of the fields of a prototype still holding the missing
sentinel, in declaration order. -/
def missingFields (p : ExperimentConfigProto) : List String :=
  (if p.dataset.isMissing then ["dataset"] else []) ++
  (if p.optimizer.isMissing then ["optimizer"] else []) ++
  (if p.num_layers.isMissing then ["num_layers"] else []) ++
  (if p.units.isMissing then ["units"] else []) ++
  (if p.batch_size.isMissing then ["batch_size"] else []) ++
  (if p.train_steps.isMissing then ["train_steps"] else []) ++
  (if p.seed.isMissing then ["seed"] else [])

/-- Turn a prototype with no missing field into a resolved config. -/
def concretize (p : ExperimentConfigProto) : Option ExperimentConfig :=
  match p.dataset, p.optimizer, p.num_layers, p.units, p.batch_size,
      p.train_steps, p.seed with
  | .value d, .value o, .value nl, .value u, .value bs, .value ts, .value s =>
    some { dataset := d, optimizer := o, num_layers := nl, units := u,
           batch_size := bs, train_steps := ts, seed := s }
  | _, _, _, _, _, _, _ => none

/-- Modelled from the spec: `resolve(prototype, overrides)` of the
ConfigResolver (the merging step of the absent `dcargs.cli`).  Overrides win
field by field; after merging, every field must be concrete, and otherwise
resolution fails with `MissingRequiredField` naming each offending field. -/
def resolve (allowVariantSwitch : Bool) (p : ExperimentConfigProto)
    (ov : Overrides) : Except ResolveError ExperimentConfig :=
  match mergeProto allowVariantSwitch p ov with
  | .error e => .error e
  | .ok merged =>
    match concretize merged with
    | some cfg => .ok cfg
    | none => .error (.MissingRequiredField (missingFields merged))

/-- Modelled from the spec: the `__main__` flow — select the base
configuration named by the `BASE_CONFIG` environment variable (possibly
absent), then resolve CLI overrides onto it.  The example runs with
`avoid_subparsers=True`, i.e. variant switching disabled.  An `.error` result
models the fatal startup error / non-zero process exit. -/
def runMain (env : Option String) (ov : Overrides) :
    Except ResolveError ExperimentConfig :=
  match selectBase base_config_library env with
  | .error e => .error e
  | .ok proto => resolve false proto ov

/-- Re-embed a resolved config as a (fully concrete) prototype. -/
def protoOf (c : ExperimentConfig) : ExperimentConfigProto :=
  { dataset := .value c.dataset
    optimizer := .value c.optimizer
    num_layers := .value c.num_layers
    units := .value c.units
    batch_size := .value c.batch_size
    train_steps := .value c.train_steps
    seed := .value c.seed }

/-- The override set supplies a value for every field of the prototype that
holds the missing sentinel. -/
def coversMissing (p : ExperimentConfigProto) (ov : Overrides) : Prop :=
  (p.dataset = .missing → ov.dataset.isSome = true) ∧
  (p.optimizer = .missing → ov.optimizer.isSome = true) ∧
  (p.num_layers = .missing → ov.num_layers.isSome = true) ∧
  (p.units = .missing → ov.units.isSome = true) ∧
  (p.batch_size = .missing → ov.batch_size.isSome = true) ∧
  (p.train_steps = .missing → ov.train_steps.isSome = true) ∧
  (p.seed = .missing → ov.seed.isSome = true)

/-- The override set supplies values only for the fields of the prototype
that hold the missing sentinel. -/
def onlyMissingOverridden (p : ExperimentConfigProto) (ov : Overrides) : Prop :=
  (p.dataset ≠ .missing → ov.dataset = none) ∧
  (p.optimizer ≠ .missing → ov.optimizer = none) ∧
  (p.num_layers ≠ .missing → ov.num_layers = none) ∧
  (p.units ≠ .missing → ov.units = none) ∧
  (p.batch_size ≠ .missing → ov.batch_size = none) ∧
  (p.train_steps ≠ .missing → ov.train_steps = none) ∧
  (p.seed ≠ .missing → ov.seed = none)

/-- The fields of the prototype that remain missing after merging an
override set: those missing in the prototype and not supplied by the
override, in declaration order. -/
def unsuppliedMissingFields (p : ExperimentConfigProto) (ov : Overrides) :
    List String :=
  (if p.dataset.isMissing && ov.dataset.isNone then ["dataset"] else []) ++
  (if p.optimizer.isMissing && ov.optimizer.isNone then ["optimizer"] else []) ++
  (if p.num_layers.isMissing && ov.num_layers.isNone then ["num_layers"] else []) ++
  (if p.units.isMissing && ov.units.isNone then ["units"] else []) ++
  (if p.batch_size.isMissing && ov.batch_size.isNone then ["batch_size"] else []) ++
  (if p.train_steps.isMissing && ov.train_steps.isNone then ["train_steps"] else []) ++
  (if p.seed.isMissing && ov.seed.isNone then ["seed"] else [])

/-- The field-wise merge of a prototype and an override set, given the
already-merged optimizer value. -/
def mergedFields (p : ExperimentConfigProto) (ov : Overrides)
    (mo : MValue OptimizerConfig) : ExperimentConfigProto :=
  { dataset := mergeField p.dataset ov.dataset
    optimizer := mo
    num_layers := mergeField p.num_layers ov.num_layers
    units := mergeField p.units ov.units
    batch_size := mergeField p.batch_size ov.batch_size
    train_steps := mergeField p.train_steps ov.train_steps
    seed := mergeField p.seed ov.seed }

lemma mergeField_isMissing {α : Type} (b : MValue α) (o : Option α) :
    (mergeField b o).isMissing = (b.isMissing && o.isNone) := by
  cases b <;> cases o <;> rfl

lemma mergeOptimizer_ok_isMissing (allow : Bool) (base : MValue OptimizerConfig)
    (ov : Option OptimizerOverride) (mo : MValue OptimizerConfig)
    (h : mergeOptimizer allow base ov = .ok mo) :
    mo.isMissing = (base.isMissing && ov.isNone) := by
  rcases ov with _ | o
  · simp only [mergeOptimizer, Except.ok.injEq] at h
    subst h
    simp
  · rcases base with _ | oc
    · rcases o with oa | og <;>
        (simp only [mergeOptimizer, Except.ok.injEq] at h; subst h; rfl)
    · rcases oc with a | s <;> rcases o with oa | og <;> cases allow <;>
        simp only [mergeOptimizer, if_true, if_false, Except.ok.injEq,
          reduceCtorEq, reduceIte] at h <;>
      (subst h; rfl)

lemma concretize_eq_none (p : ExperimentConfigProto) (h : p.seed = .missing) :
    concretize p = none := by
  obtain ⟨d, o, nl, u, bs, ts, s⟩ := p
  cases s with
  | missing =>
    cases d <;> cases o <;> cases nl <;> cases u <;> cases bs <;> cases ts <;> rfl
  | value v => exact MValue.noConfusion h

lemma mergeProto_ok (allow : Bool) (p : ExperimentConfigProto) (ov : Overrides)
    (mo : MValue OptimizerConfig)
    (hopt : mergeOptimizer allow p.optimizer ov.optimizer = .ok mo) :
    mergeProto allow p ov = .ok (mergedFields p ov mo) := by
  unfold mergeProto mergedFields
  rw [hopt]

lemma resolve_missing (allow : Bool) (p : ExperimentConfigProto) (ov : Overrides)
    (merged : ExperimentConfigProto) (hm : mergeProto allow p ov = .ok merged)
    (hn : concretize merged = none) :
    resolve allow p ov = .error (.MissingRequiredField (missingFields merged)) := by
  simp only [resolve, hm, hn]

lemma missingFields_merged (p : ExperimentConfigProto) (ov : Overrides)
    (mo : MValue OptimizerConfig)
    (hmo : mo.isMissing = (p.optimizer.isMissing && ov.optimizer.isNone)) :
    missingFields (mergedFields p ov mo) = unsuppliedMissingFields p ov := by
  simp only [missingFields, mergedFields, unsuppliedMissingFields,
    mergeField_isMissing, hmo]

/-- Claim C1: for every base-configuration name present in the registry,
`selectBase` on that name followed by `resolve` with an override supplied for
every field whose prototype value is the missing sentinel (and only those
fields) succeeds, in either variant-switch mode, and yields an
`ExperimentConfig`, a record in which every field holds a concrete value. -/
theorem registry_resolve_total (allow : Bool)
    (pr : String × ExperimentConfigProto) (hmem : pr ∈ base_config_library)
    (ov : Overrides) (hcov : coversMissing pr.2 ov)
    (honly : onlyMissingOverridden pr.2 ov) :
    ∃ cfg, resolve allow pr.2 ov = .ok cfg := by
  simp only [base_config_library, List.mem_cons, List.not_mem_nil,
    or_false] at hmem
  obtain ⟨od, oo, onl, ou, ob, ot, os⟩ := ov
  rcases hmem with h | h <;> subst h
  · have hoo : oo = none := honly.2.1 (fun hc => MValue.noConfusion hc)
    have hos := hcov.2.2.2.2.2.2 rfl
    obtain ⟨s, hs⟩ := Option.isSome_iff_exists.mp hos
    subst hoo
    subst hs
    cases od <;> cases onl <;> cases ou <;> cases ob <;> cases ot <;>
      exact ⟨_, rfl⟩
  · have hoo : oo = none := honly.2.1 (fun hc => MValue.noConfusion hc)
    have hos := hcov.2.2.2.2.2.2 rfl
    obtain ⟨s, hs⟩ := Option.isSome_iff_exists.mp hos
    subst hoo
    subst hs
    cases od <;> cases onl <;> cases ou <;> cases ob <;> cases ot <;>
      exact ⟨_, rfl⟩

/-- Witness for C1: resolving the registry's "small" prototype with the
single override `seed = 94720` succeeds. -/
theorem registry_resolve_total_witness :
    ∃ cfg, resolve false ("small", smallProto).2 { seed := some 94720 } =
      .ok cfg :=
  registry_resolve_total false ("small", smallProto)
    (by unfold base_config_library; exact List.mem_cons_self _ _)
    { seed := some 94720 }
    (by unfold coversMissing; decide)
    (by unfold onlyMissingOverridden; decide)

/-- Claim C2: selecting "small" and resolving its prototype with the single
override `seed = 94720` yields exactly `dataset = mnist`,
`optimizer = Sgd {learning_rate = 3e-4}`, `num_layers = 4`, `units = 64`,
`batch_size = 2048`, `train_steps = 30000`, `seed = 94720`. -/
theorem resolve_small_seed_94720 :
    selectBase base_config_library (some "small") = .ok smallProto ∧
    resolve false smallProto { seed := some 94720 } =
      .ok { dataset := .mnist, optimizer := .sgd { learning_rate := 3/10000 },
            num_layers := 4, units := 64, batch_size := 2048,
            train_steps := 30000, seed := 94720 } :=
  ⟨rfl, rfl⟩

/-- Claim C3: selecting "big" and resolving its prototype with the single
override `seed = 94720` yields exactly `dataset = imagenet-50`,
`optimizer = Adam {learning_rate = 1e-3, betas = (0.9, 0.999)}` (the source
stores the two beta coefficients as the pair `betas`), `num_layers = 8`,
`units = 256`, `batch_size = 32`, `train_steps = 100000`, `seed = 94720`. -/
theorem resolve_big_seed_94720 :
    selectBase base_config_library (some "big") = .ok bigProto ∧
    resolve false bigProto { seed := some 94720 } =
      .ok { dataset := .imagenet50,
            optimizer := .adam { learning_rate := 1/1000,
                                 betas := (9/10, 999/1000) },
            num_layers := 8, units := 256, batch_size := 32,
            train_steps := 100000, seed := 94720 } :=
  ⟨rfl, rfl⟩

/-- Claim C4: resolving any prototype whose `seed` holds the missing sentinel
(as both registry prototypes do) with an override set that does not supply
`seed` — and whose optimizer part merges without a variant-switch error —
fails with `MissingRequiredField`, whose field list names `seed` and is
exactly the list of all fields still missing after merging (those missing in
the prototype and unsupplied by the override), not just the first. -/
theorem resolve_reports_all_missing (allow : Bool) (p : ExperimentConfigProto)
    (ov : Overrides) (mo : MValue OptimizerConfig)
    (hopt : mergeOptimizer allow p.optimizer ov.optimizer = .ok mo)
    (hp : p.seed = .missing) (hseed : ov.seed = none) :
    resolve allow p ov =
      .error (.MissingRequiredField (unsuppliedMissingFields p ov)) ∧
    "seed" ∈ unsuppliedMissingFields p ov := by
  have hmo := mergeOptimizer_ok_isMissing allow p.optimizer ov.optimizer mo hopt
  have hmp := mergeProto_ok allow p ov mo hopt
  have hsm : (mergedFields p ov mo).seed = .missing := by
    show mergeField p.seed ov.seed = .missing
    rw [hp, hseed]
    rfl
  have hres := resolve_missing allow p ov (mergedFields p ov mo) hmp
    (concretize_eq_none _ hsm)
  rw [missingFields_merged p ov mo hmo] at hres
  refine ⟨hres, ?_⟩
  simp [unsuppliedMissingFields, hp, hseed, MValue.isMissing]

/-- Witness for C4: resolving the "small" prototype with an empty override
set fails with `MissingRequiredField` naming `seed`. -/
theorem resolve_reports_all_missing_witness :
    resolve false smallProto {} =
      .error (.MissingRequiredField (unsuppliedMissingFields smallProto {})) ∧
    "seed" ∈ unsuppliedMissingFields smallProto {} :=
  resolve_reports_all_missing false smallProto {} (.value (.sgd {})) rfl rfl rfl

/-- Claim C5: selecting a base-configuration name absent from the registry,
or supplying no name at all, fails with `UnknownBaseName` reporting the valid
names `small` and `big`; the whole program run (`runMain`) then stops with
that same error, modelling the fatal startup error and non-zero exit. -/
theorem selectBase_unknown (o : Option String) (ov : Overrides)
    (h : ∀ s, o = some s → s ≠ "small" ∧ s ≠ "big") :
    selectBase base_config_library o =
      .error (.UnknownBaseName ["small", "big"]) ∧
    runMain o ov = .error (.UnknownBaseName ["small", "big"]) := by
  rcases o with _ | s
  · exact ⟨rfl, rfl⟩
  · obtain ⟨h1, h2⟩ := h s rfl
    have hb1 : (s == "small") = false := beq_eq_false_iff_ne.mpr h1
    have hb2 : (s == "big") = false := beq_eq_false_iff_ne.mpr h2
    have hsel : selectBase base_config_library (some s) =
        .error (.UnknownBaseName ["small", "big"]) := by
      simp [selectBase, base_config_library, List.lookup, hb1, hb2]
    exact ⟨hsel, by simp [runMain, hsel]⟩

/-- Witness for C5: the name "medium" is rejected with `UnknownBaseName`
listing `small` and `big`. -/
theorem selectBase_unknown_witness :
    selectBase base_config_library (some "medium") =
      .error (.UnknownBaseName ["small", "big"]) ∧
    runMain (some "medium") {} = .error (.UnknownBaseName ["small", "big"]) :=
  selectBase_unknown (some "medium") {}
    (fun s hs => by
      simp only [Option.some.injEq] at hs
      subst hs
      exact ⟨by decide, by decide⟩)

/-- Claim C6: with variant switching disabled, an override targeting the
optimizer of the "big" (Adam) prototype with Sgd-shaped fields fails with
`VariantSwitchDisabled`; with it enabled, the same override succeeds and
replaces the optimizer case entirely (the new Sgd record is built from the
Sgd defaults and the supplied sub-fields, independent of the Adam base). -/
theorem variant_switch_policy (o : SgdOverride) (s : Int) :
    resolve false bigProto { optimizer := some (.sgd o), seed := some s } =
      .error .VariantSwitchDisabled ∧
    resolve true bigProto { optimizer := some (.sgd o), seed := some s } =
      .ok { dataset := .imagenet50, optimizer := .sgd (applySgdOverride {} o),
            num_layers := 8, units := 256, batch_size := 32,
            train_steps := 100000, seed := s } :=
  ⟨rfl, rfl⟩

/-- Claim C7: resolve is idempotent on concrete prototypes — a prototype in
which no field holds the missing sentinel, resolved with an empty override
set in either mode, succeeds and returns the prototype unchanged
(field-for-field equal, stated via the re-embedding `protoOf`). -/
theorem resolve_concrete_idempotent (allow : Bool) (p : ExperimentConfigProto)
    (h : missingFields p = []) :
    ∃ cfg, resolve allow p {} = .ok cfg ∧ protoOf cfg = p := by
  obtain ⟨d, o, nl, u, bs, ts, s⟩ := p
  cases d <;> cases o <;> cases nl <;> cases u <;> cases bs <;> cases ts <;>
      cases s <;>
    first
      | exact ⟨_, rfl, rfl⟩
      | simp [missingFields, MValue.isMissing] at h

/-- Witness for C7: resolving a fully concrete prototype with no overrides
returns it unchanged. -/
theorem resolve_concrete_idempotent_witness :
    ∃ cfg,
      resolve false
        (protoOf
          { dataset := .mnist, optimizer := .sgd {}, num_layers := 4,
            units := 64, batch_size := 2048, train_steps := 30000,
            seed := 94720 })
        {} = .ok cfg ∧
      protoOf cfg =
        protoOf
          { dataset := .mnist, optimizer := .sgd {}, num_layers := 4,
            units := 64, batch_size := 2048, train_steps := 30000,
            seed := 94720 } :=
  resolve_concrete_idempotent false _ (by decide)

/-- Claim C8: resolution is a deterministic pure function with no partial
success — two runs of `resolve` on equal prototypes and equal override sets
either both succeed with the same (field-for-field equal) configuration or
both fail with the same error; the `Except` result means a failing run
produces no configuration value at all. -/
theorem resolve_two_runs_agree (allow : Bool) (p p' : ExperimentConfigProto)
    (ov ov' : Overrides) (hp : p = p') (hov : ov = ov') :
    (∃ cfg, resolve allow p ov = .ok cfg ∧ resolve allow p' ov' = .ok cfg) ∨
    (∃ e, resolve allow p ov = .error e ∧ resolve allow p' ov' = .error e) := by
  subst hp
  subst hov
  cases resolve allow p ov with
  | error e => exact Or.inr ⟨e, rfl, rfl⟩
  | ok cfg => exact Or.inl ⟨cfg, rfl, rfl⟩

/-- Witness for C8: two runs on the "small" prototype with the same override
set agree. -/
theorem resolve_two_runs_agree_witness :
    (∃ cfg, resolve false smallProto { seed := some 94720 } = .ok cfg ∧
        resolve false smallProto { seed := some 94720 } = .ok cfg) ∨
    (∃ e, resolve false smallProto { seed := some 94720 } = .error e ∧
        resolve false smallProto { seed := some 94720 } = .error e) :=
  resolve_two_runs_agree false smallProto smallProto
    { seed := some 94720 } { seed := some 94720 } rfl rfl

/-- Claim C9: the registry contains exactly the keys "small" and "big", in
that order, and in each of the two prototypes `seed` is the only field set to
the missing sentinel — every other field holds a concrete value. -/
theorem registry_exactly_small_big :
    base_config_library.map Prod.fst = ["small", "big"] ∧
    ∀ pr ∈ base_config_library, missingFields pr.2 = ["seed"] := by
  decide

/-- Claim C10: both optimizer variant cases declare defaults for all their
sub-fields (`AdamOptimizer`: `learning_rate = 1e-3`, `betas = (0.9, 0.999)`;
`SgdOptimizer`: `learning_rate = 3e-4`), so constructing either case with no
arguments yields a fully concrete optimizer sub-record, and merging any
optimizer override — even one omitting all sub-fields — never leaves the
optimizer in the missing state. -/
theorem optimizer_defaults_concrete (allow : Bool)
    (base : MValue OptimizerConfig) (o : OptimizerOverride)
    (mo : MValue OptimizerConfig)
    (h : mergeOptimizer allow base (some o) = .ok mo) :
    ({} : AdamOptimizer) =
      { learning_rate := 1/1000, betas := (9/10, 999/1000) } ∧
    ({} : SgdOptimizer) = { learning_rate := 3/10000 } ∧
    mo.isMissing = false := by
  refine ⟨rfl, rfl, ?_⟩
  rw [mergeOptimizer_ok_isMissing allow base (some o) mo h]
  simp

/-- Witness for C10: an Adam override with no sub-fields applied to a missing
optimizer yields the fully-default, concrete Adam record. -/
theorem optimizer_defaults_concrete_witness :
    ({} : AdamOptimizer) =
      { learning_rate := 1/1000, betas := (9/10, 999/1000) } ∧
    ({} : SgdOptimizer) = { learning_rate := 3/10000 } ∧
    (MValue.value (OptimizerConfig.adam {})).isMissing = false :=
  optimizer_defaults_concrete true .missing (.adam {}) (.value (.adam {})) rfl

end BaseConfigs
